import Mathlib

/-!
Verification of the vehicle-platooning protocol core (CN_Project).

Shallow embedding of the three variants of the source:
- `Vpemer`    : vpemer.py (error codec, aged priority queue, vehicle agent)
- `VPlatoon`  : vehiclePlatoon.py (congestion control + RLNC encoder)
- `Compare`   : compare.py (leader assignment with speed adoption)

Python floats are modelled as rationals; Python ints as `Nat`/`Int`;
random draws and registry lookups are passed in as explicit parameters
(the spec requires pluggable deterministic decision providers).
-/

/-- Result of Python `max(xs, key=key)` on the nonempty list `x :: xs`:
the first element attaining the maximal key (Python keeps the incumbent
on ties and replaces it only on a strictly greater key). -/
def maxBy {α β : Type} [LinearOrder β] (key : α → β) (x : α) (xs : List α) : α :=
  xs.foldl (fun acc b => if key acc < key b then b else acc) x

/-- Result of a Python `heapq` pop on the nonempty multiset `x :: xs`:
an element with minimal key (first such element in our list model). -/
def minBy {α β : Type} [LinearOrder β] (key : α → β) (x : α) (xs : List α) : α :=
  xs.foldl (fun acc b => if key b < key acc then b else acc) x

theorem maxBy_mem {α β : Type} [LinearOrder β] (key : α → β) (x : α) (xs : List α) :
    maxBy key x xs ∈ x :: xs := by
  induction xs generalizing x with
  | nil => simp [maxBy]
  | cons y ys ih =>
    have h : maxBy key x (y :: ys) = maxBy key (if key x < key y then y else x) ys := rfl
    rw [h]
    rcases List.mem_cons.mp (ih (if key x < key y then y else x)) with h1 | h1
    · rw [h1]
      by_cases hk : key x < key y <;> simp [hk]
    · simp [List.mem_cons, h1]

theorem maxBy_le {α β : Type} [LinearOrder β] (key : α → β) (x : α) (xs : List α) :
    ∀ y ∈ x :: xs, key y ≤ key (maxBy key x xs) := by
  induction xs generalizing x with
  | nil => intro y hy; simp at hy; simp [maxBy, hy]
  | cons z zs ih =>
    intro y hy
    have h : maxBy key x (z :: zs) = maxBy key (if key x < key z then z else x) zs := rfl
    rw [h]
    have step : key x ≤ key (if key x < key z then z else x) ∧
        key z ≤ key (if key x < key z then z else x) := by
      by_cases hk : key x < key z <;> simp [hk] <;> [exact le_of_lt hk; exact le_of_not_lt hk]
    rcases List.mem_cons.mp hy with rfl | hy2
    · exact le_trans step.1 (ih _ _ (List.mem_cons_self _ _))
    · rcases List.mem_cons.mp hy2 with rfl | hy3
      · exact le_trans step.2 (ih _ _ (List.mem_cons_self _ _))
      · exact ih _ _ (List.mem_cons.mpr (Or.inr hy3))

theorem minBy_mem {α β : Type} [LinearOrder β] (key : α → β) (x : α) (xs : List α) :
    minBy key x xs ∈ x :: xs := by
  induction xs generalizing x with
  | nil => simp [minBy]
  | cons y ys ih =>
    have h : minBy key x (y :: ys) = minBy key (if key y < key x then y else x) ys := rfl
    rw [h]
    rcases List.mem_cons.mp (ih (if key y < key x then y else x)) with h1 | h1
    · rw [h1]
      by_cases hk : key y < key x <;> simp [hk]
    · simp [List.mem_cons, h1]

theorem minBy_le {α β : Type} [LinearOrder β] (key : α → β) (x : α) (xs : List α) :
    ∀ y ∈ x :: xs, key (minBy key x xs) ≤ key y := by
  induction xs generalizing x with
  | nil => intro y hy; simp at hy; simp [minBy, hy]
  | cons z zs ih =>
    intro y hy
    have h : minBy key x (z :: zs) = minBy key (if key z < key x then z else x) zs := rfl
    rw [h]
    have step : key (if key z < key x then z else x) ≤ key x ∧
        key (if key z < key x then z else x) ≤ key z := by
      by_cases hk : key z < key x <;> simp [hk] <;> [exact le_of_lt hk; exact le_of_not_lt hk]
    rcases List.mem_cons.mp hy with rfl | hy2
    · exact le_trans (ih _ _ (List.mem_cons_self _ _)) step.1
    · rcases List.mem_cons.mp hy2 with rfl | hy3
      · exact le_trans (ih _ _ (List.mem_cons_self _ _)) step.2
      · exact ih _ _ (List.mem_cons.mpr (Or.inr hy3))

/-- vpemer.py: `SINGLE_BIT = 1`, `DOUBLE_BIT = 2`, `BURST = 3` as an enum;
`heartbeat['error_type']` may also be `None`, modelled by `Option ErrorType`. -/
inductive ErrorType : Type
  | single_bit
  | double_bit
  | burst
deriving DecidableEq, Repr

/-- vpemer.py: `random.choice(["straight", "left", "right"])`. -/
inductive Direction : Type
  | straight
  | left
  | right
deriving DecidableEq, Repr

/-- vpemer.py: `MAX_SPEED = 120` (same constant in compare.py). -/
def MAX_SPEED : ℚ := 120

/-- Heartbeat dict of vpemer.py: a payload bit string (`true` = the
character `1`), an even-parity bit stored as a small integer, a sync flag,
an optional injected error type and optional redundant copies used only
for burst correction. -/
structure Heartbeat : Type where
  binary_message : List Bool
  parity : Nat
  sync : Bool
  error_type : Option ErrorType
  redundant_messages : Option (List (List Bool))
deriving DecidableEq, Repr

/-- vpemer.py `flip_bit`: flip the payload bit at `index`
(`binary_str[:index] + flipped_bit + binary_str[index+1:]`). -/
def flip_bit (l : List Bool) (index : Nat) : List Bool :=
  l.set index (! l.getD index false)

/-- Python `int(binary_message, 2)`. -/
def bits_to_nat (l : List Bool) : Nat :=
  l.foldl (fun n b => 2 * n + (if b then 1 else 0)) 0

namespace Vpemer

/-- Mutable per-vehicle state of vpemer.py's `Vehicle` (the thread/queue
handles are omitted; the global `error_data[kind][vehicle_id]` counters are
modelled as per-vehicle fields, which is how the spec describes them). -/
structure Vehicle : Type where
  vehicle_id : Nat
  speed : ℚ
  position : ℚ
  synchronized : Bool
  running : Bool
  obstacle_detected : Bool
  direction : Direction
  leader : Option Nat
  err_single : Nat
  err_double : Nat
  err_burst : Nat
deriving DecidableEq, Repr

/-- Scan of `correct_single_bit_error`: try bit positions left to right and
return the first flipped payload whose popcount parity equals the stored
parity (`for i in range(len(binary_message)) ... if flipped.count('1') % 2
== original_parity`). -/
def find_parity_fix (msg : List Bool) (parity : Nat) : Option (List Bool) :=
  (List.range msg.length).findSome? (fun i =>
    let flipped := flip_bit msg i
    if flipped.count true % 2 = parity then some flipped else none)

/-- vpemer.py `Vehicle.correct_single_bit_error`: if the stored parity
differs from the recomputed one, apply the first parity-restoring flip,
bump the single-bit counter and report `True`; in every other case
(parity already matching, or no position found) report `False`. -/
def correct_single_bit_error (v : Vehicle) (hb : Heartbeat) :
    Vehicle × Heartbeat × Bool :=
  let calculated_parity := hb.binary_message.count true % 2
  if hb.parity ≠ calculated_parity then
    match find_parity_fix hb.binary_message hb.parity with
    | some flipped =>
        ({ v with err_single := v.err_single + 1 },
         { hb with binary_message := flipped }, true)
    | none => (v, hb, false)
  else
    (v, hb, false)

/-- Candidate set and majority vote of `correct_burst_error`:
`max(set(redundant_messages), key=redundant_messages.count)`. Python's set
iteration order is unspecified; we take the deduplicated list as the
candidate set, which is one deterministic choice (ties between equally
frequent payloads are implementation-defined in the source). -/
def majority_message (msgs : List (List Bool)) : List Bool :=
  match msgs.dedup with
  | [] => []
  | c :: cs => maxBy (fun m => msgs.count m) c cs

/-- vpemer.py `Vehicle.correct_burst_error`: take the redundant copies
(defaulting to the payload itself), fail below three copies, otherwise
replace the payload by the majority copy when it differs (`True`) and
report `False` when the majority already equals the payload. -/
def correct_burst_error (v : Vehicle) (hb : Heartbeat) :
    Vehicle × Heartbeat × Bool :=
  let redundant := hb.redundant_messages.getD [hb.binary_message]
  if redundant.length < 3 then
    (v, hb, false)
  else
    let majority := majority_message redundant
    if majority ≠ hb.binary_message then
      (v, { hb with binary_message := majority }, true)
    else
      (v, hb, false)

/-- vpemer.py `Vehicle.detect_and_correct_errors`: dispatch on the error
type; double-bit errors bump the double-bit counter and fail, burst errors
bump the burst counter before attempting majority correction, and an
absent error type passes through. -/
def detect_and_correct_errors (v : Vehicle) (hb : Heartbeat) :
    Vehicle × Heartbeat × Bool :=
  match hb.error_type with
  | some .single_bit => correct_single_bit_error v hb
  | some .double_bit => ({ v with err_double := v.err_double + 1 }, hb, false)
  | some .burst => correct_burst_error { v with err_burst := v.err_burst + 1 } hb
  | none => (v, hb, true)

/-- vpemer.py `Vehicle.adjust_speed`: follow the leader's current speed
when one is assigned (the registry read `self.leader.speed` is supplied as
`lookup_speed`), otherwise do a clamped random walk with draw `delta`
(`max(10, min(self.speed + delta, MAX_SPEED))`); then advance the
position by the new speed. -/
def adjust_speed (v : Vehicle) (lookup_speed : Nat → ℚ) (delta : ℚ) : Vehicle :=
  let s :=
    match v.leader with
    | some lid => lookup_speed lid
    | none => max 10 (min (v.speed + delta) MAX_SPEED)
  { v with speed := s, position := v.position + s }

/-- vpemer.py `Vehicle.process_heartbeat`: run the codec; on success and a
sync flag (with the vehicle running) adopt the decoded speed capped at
`MAX_SPEED` and advance the position, on success without sync fall back to
`adjust_speed`, and on failure do nothing further. The returned boolean is
the codec's verdict. -/
def process_heartbeat (v : Vehicle) (hb : Heartbeat)
    (lookup_speed : Nat → ℚ) (delta : ℚ) : Vehicle × Heartbeat × Bool :=
  let r := detect_and_correct_errors v hb
  let v1 := r.1
  let hb1 := r.2.1
  if r.2.2 then
    if hb1.sync ∧ v1.running then
      let s := min ((bits_to_nat hb1.binary_message : ℚ)) MAX_SPEED
      ({ v1 with synchronized := true, speed := s, position := v1.position + s },
       hb1, true)
    else
      (adjust_speed v1 lookup_speed delta, hb1, true)
  else
    (v1, hb1, false)

/-- vpemer.py `Vehicle.assign_leader`: among registered vehicles sharing
the direction with strictly greater position, store the id of the one with
maximal position as leader (Python's `max` keeps the first maximal
element); the follower's speed is not touched by this variant. -/
def assign_leader (vehicles : List Vehicle) (self_ : Vehicle) : Vehicle :=
  let in_direction := vehicles.filter
    (fun v => decide (v.direction = self_.direction ∧ self_.position < v.position))
  match in_direction with
  | [] => self_
  | c :: cs => { self_ with leader := some (maxBy (fun v => v.position) c cs).vehicle_id }

/-- Update applied by `handle_obstacle`'s fan-out loop to every other
vehicle that has not yet detected the obstacle: raise its flag and
decelerate it by 10 with a floor at 0. -/
def obstacle_notify (w : Vehicle) : Vehicle :=
  if w.obstacle_detected then w
  else { w with obstacle_detected := true, speed := max 0 (w.speed - 10) }

/-- vpemer.py `Vehicle.handle_obstacle`: while still moving, decelerate by
10 (floored at 0) and notify all other vehicles; once stopped, clear the
obstacle flag. -/
def handle_obstacle (v : Vehicle) (others : List Vehicle) :
    Vehicle × List Vehicle :=
  if 0 < v.speed then
    ({ v with speed := max 0 (v.speed - 10) }, others.map obstacle_notify)
  else
    ({ v with obstacle_detected := false }, others)

/-- vpemer.py `Vehicle.handle_intersection` with the random draws
(`at_intersection`, `can_turn`, the fresh direction) supplied as
parameters: going straight changes nothing, a feasible turn resets
direction and leader, an infeasible one yields by setting speed to 0. -/
def handle_intersection (v : Vehicle) (is_at : Bool) (is_can_turn : Bool)
    (new_direction : Direction) : Vehicle :=
  if is_at then
    if v.direction = .straight then v
    else if is_can_turn then { v with direction := new_direction, leader := none }
    else { v with speed := 0 }
  else v

/-- vpemer.py `AgedPriorityQueue`: a priority queue whose `put` discounts
the given priority by the current aging factor, clamped below at 1; the
underlying heap is modelled as the list of stored entries in insertion
order, with `get` extracting an entry of minimal stored priority. -/
structure AgedPriorityQueue : Type where
  age_factor : Int
  entries : List (Int × Heartbeat)
deriving DecidableEq, Repr

/-- vpemer.py `AgedPriorityQueue.put`: store the heartbeat under
`max(1, priority - self.age_factor)` computed at enqueue time. -/
def AgedPriorityQueue.put (q : AgedPriorityQueue) (priority : Int)
    (hb : Heartbeat) : AgedPriorityQueue :=
  { q with entries := q.entries ++ [(max 1 (priority - q.age_factor), hb)] }

/-- vpemer.py `AgedPriorityQueue.increase_age`: bump the aging factor. -/
def AgedPriorityQueue.increase_age (q : AgedPriorityQueue) : AgedPriorityQueue :=
  { q with age_factor := q.age_factor + 1 }

/-- Dequeue of the underlying `queue.PriorityQueue`: pop an entry with the
smallest stored priority (tie order among equal priorities is undefined in
the source, which would compare heartbeat dicts). -/
def AgedPriorityQueue.get (q : AgedPriorityQueue) :
    Option ((Int × Heartbeat) × AgedPriorityQueue) :=
  match q.entries with
  | [] => none
  | e :: es =>
    let m := minBy (fun x => x.1) e es
    some (m, { q with entries := (e :: es).erase m })

end Vpemer

namespace VPlatoon

/-- Congestion-control state of vehiclePlatoon.py's `Vehicle`: the window,
the slow-start threshold and the (immutable) window cap. -/
structure CongestionState : Type where
  cwnd : Nat
  ssthresh : Nat
  max_window_size : Nat
deriving DecidableEq, Repr

/-- vehiclePlatoon.py `Vehicle.__init__`: `cwnd = 1`,
`ssthresh = max_window_size // 2` (same initialisation in vpemer.py). -/
def initCongestion (max_window_size : Nat) : CongestionState :=
  { cwnd := 1, ssthresh := max_window_size / 2, max_window_size := max_window_size }

/-- vehiclePlatoon.py `Vehicle.rlnc_encode`: produce `num_packets` random
linear combinations of the pending packets, or nothing when there are no
pending packets. The per-packet coefficient draws
(`np.random.randint(0, 10, size=num_original)`) are supplied by the
deterministic source `coeffs` (packet index, position index). -/
def rlnc_encode (packets : List Int) (num_packets : Nat)
    (coeffs : Nat → Nat → Int) : List Int :=
  if packets.length = 0 then []
  else
    (List.range num_packets).map (fun k =>
      ((packets.enum).map (fun pr => coeffs k pr.1 * pr.2)).sum)

/-- vehiclePlatoon.py `Vehicle.handle_congestion_control`: double the
window during slow start (`cwnd < ssthresh`), otherwise add one; cap at
`max_window_size`; then generate `cwnd` coded packets and, on the first
simulated loss among them (decision `loss i` for packet `i`), set
`ssthresh = max(cwnd // 2, 1)` and reset `cwnd = 1`. -/
def handle_congestion_control (s : CongestionState) (data_packets : List Int)
    (coeffs : Nat → Nat → Int) (loss : Nat → Bool) : CongestionState :=
  let grown := if s.cwnd < s.ssthresh then s.cwnd * 2 else s.cwnd + 1
  let capped := min grown s.max_window_size
  let encoded := rlnc_encode data_packets capped coeffs
  if (List.range encoded.length).any loss then
    { s with ssthresh := max (capped / 2) 1, cwnd := 1 }
  else
    { s with cwnd := capped }

/-- One entry per simulated tick: the pending data packets, the coefficient
source and the per-packet loss decision for that tick. -/
structure TickInput : Type where
  data_packets : List Int
  coeffs : Nat → Nat → Int
  loss : Nat → Bool

/-- A whole run: fold `handle_congestion_control` over a list of ticks. -/
def run_ticks (s : CongestionState) (ticks : List TickInput) : CongestionState :=
  ticks.foldl (fun st t => handle_congestion_control st t.data_packets t.coeffs t.loss) s

/-- State of vehiclePlatoon.py's `Vehicle` touched by its speed logic. -/
structure Vehicle : Type where
  speed : ℚ
  position : ℚ
  synchronized : Bool
deriving DecidableEq, Repr

/-- vehiclePlatoon.py `Vehicle.adjust_speed`: while unsynchronized, drift
the speed by the random draw `delta` from `random.uniform(-5, 5)` with no
clamping at all; synchronized vehicles keep their speed. -/
def adjust_speed (v : Vehicle) (delta : ℚ) : Vehicle :=
  if v.synchronized then v else { v with speed := v.speed + delta }

end VPlatoon

namespace Compare

/-- Mutable per-vehicle state of compare.py's `Vehicle` (leader stored as
the leader's id, standing for the Python object reference). -/
structure Vehicle : Type where
  vehicle_id : Nat
  speed : ℚ
  position : ℚ
  synchronized : Bool
  direction : Direction
  leader : Option Nat
deriving DecidableEq, Repr

/-- Filter of compare.py `assign_leader`: vehicles sharing the direction
whose position is strictly greater
(`[v for v in vehicles if v.direction == self.direction and v.position > self.position]`). -/
def leader_candidates (vehicles : List Vehicle) (self_ : Vehicle) : List Vehicle :=
  vehicles.filter
    (fun v => decide (v.direction = self_.direction ∧ self_.position < v.position))

/-- Per-vehicle registry update performed by compare.py `assign_leader`
once the leader `L` is chosen: the assigning vehicle stores `L` as leader
and adopts `L`'s speed (`update_following_speed`); every other vehicle
already following `L` also adopts `L`'s speed; everyone else is untouched. -/
def apply_leader_update (self_id leader_id : Nat) (leader_speed : ℚ)
    (v : Vehicle) : Vehicle :=
  if v.vehicle_id = self_id then
    { v with leader := some leader_id, speed := leader_speed }
  else if v.leader = some leader_id then
    { v with speed := leader_speed }
  else v

/-- compare.py `Vehicle.assign_leader` acting on the vehicle at index `i`
of the registry: pick the maximal-position candidate (Python `max` keeps
the first maximal element), then apply the registry update; with no
candidate the registry is unchanged. -/
def assign_leader (vehicles : List Vehicle) (i : Nat) : List Vehicle :=
  match vehicles.get? i with
  | none => vehicles
  | some self_ =>
    match leader_candidates vehicles self_ with
    | [] => vehicles
    | c :: cs =>
      let L := maxBy (fun v => v.position) c cs
      vehicles.map (apply_leader_update self_.vehicle_id L.vehicle_id L.speed)

end Compare

namespace VPlatoon

/-- One congestion-control tick preserves the window invariant whenever the
window cap is at least 2 (which makes `ssthresh = max_window_size // 2`
positive at construction and keeps it positive). -/
theorem handle_congestion_control_inv (s : CongestionState) (d : List Int)
    (c : Nat → Nat → Int) (l : Nat → Bool) (hm : 2 ≤ s.max_window_size)
    (h1 : 1 ≤ s.cwnd) (h3 : 1 ≤ s.ssthresh) :
    1 ≤ (handle_congestion_control s d c l).cwnd ∧
    (handle_congestion_control s d c l).cwnd ≤ s.max_window_size ∧
    1 ≤ (handle_congestion_control s d c l).ssthresh ∧
    (handle_congestion_control s d c l).max_window_size = s.max_window_size := by
  unfold handle_congestion_control
  by_cases hss : s.cwnd < s.ssthresh <;>
    simp only [hss, if_true, if_false, reduceIte] <;>
    split <;>
    refine ⟨?_, ?_, ?_, ?_⟩ <;> dsimp only <;> omega

/-- The window invariant survives any whole run of ticks. -/
theorem run_ticks_inv (ticks : List TickInput) :
    ∀ s : CongestionState, 2 ≤ s.max_window_size → 1 ≤ s.cwnd →
      s.cwnd ≤ s.max_window_size → 1 ≤ s.ssthresh →
      1 ≤ (run_ticks s ticks).cwnd ∧
      (run_ticks s ticks).cwnd ≤ s.max_window_size ∧
      1 ≤ (run_ticks s ticks).ssthresh ∧
      (run_ticks s ticks).max_window_size = s.max_window_size := by
  induction ticks with
  | nil => intro s hm h1 h2 h3; exact ⟨h1, h2, h3, rfl⟩
  | cons t ts ih =>
    intro s hm h1 h2 h3
    have hstep := handle_congestion_control_inv s t.data_packets t.coeffs t.loss hm h1 h3
    have hrun : run_ticks s (t :: ts) =
        run_ticks (handle_congestion_control s t.data_packets t.coeffs t.loss) ts := rfl
    rw [hrun]
    have := ih (handle_congestion_control s t.data_packets t.coeffs t.loss)
      (hstep.2.2.2 ▸ hm) hstep.1 (hstep.2.2.2 ▸ hstep.2.1) hstep.2.2.1
    exact ⟨this.1, hstep.2.2.2 ▸ this.2.1, this.2.2.1, this.2.2.2.trans hstep.2.2.2⟩

end VPlatoon

/-- C1 (amended): for every `maxWindowSize ≥ 2` and every sequence of
congestion-control ticks — any pending-packet lists, any deterministic
coefficient sources and any deterministic per-packet loss decisions — the
state reached from the constructor's `cwnd = 1`,
`ssthresh = maxWindowSize // 2` satisfies `1 ≤ cwnd ≤ maxWindowSize` and
`ssthresh ≥ 1` after every tick. -/
theorem C1_congestion_invariant (mws : Nat) (hm : 2 ≤ mws)
    (ticks : List VPlatoon.TickInput) :
    1 ≤ (VPlatoon.run_ticks (VPlatoon.initCongestion mws) ticks).cwnd ∧
    (VPlatoon.run_ticks (VPlatoon.initCongestion mws) ticks).cwnd ≤ mws ∧
    1 ≤ (VPlatoon.run_ticks (VPlatoon.initCongestion mws) ticks).ssthresh := by
  have h := VPlatoon.run_ticks_inv ticks (VPlatoon.initCongestion mws) hm
    (by simp [VPlatoon.initCongestion]) (by simp [VPlatoon.initCongestion]; omega)
    (by simp [VPlatoon.initCongestion]; omega)
  exact ⟨h.1, h.2.1, h.2.2.1⟩

/-- C1 witness: the invariant instantiated at `maxWindowSize = 5` with two
concrete ticks (one lossless, one with a loss on every packet). -/
theorem C1_congestion_invariant_witness :
    2 ≤ 5 ∧
    (1 ≤ (VPlatoon.run_ticks (VPlatoon.initCongestion 5)
        [⟨[7], fun _ _ => 1, fun _ => false⟩, ⟨[7], fun _ _ => 1, fun _ => true⟩]).cwnd ∧
      (VPlatoon.run_ticks (VPlatoon.initCongestion 5)
        [⟨[7], fun _ _ => 1, fun _ => false⟩, ⟨[7], fun _ _ => 1, fun _ => true⟩]).cwnd ≤ 5 ∧
      1 ≤ (VPlatoon.run_ticks (VPlatoon.initCongestion 5)
        [⟨[7], fun _ _ => 1, fun _ => false⟩, ⟨[7], fun _ _ => 1, fun _ => true⟩]).ssthresh) :=
  ⟨by decide, C1_congestion_invariant 5 (by decide)
    [⟨[7], fun _ _ => 1, fun _ => false⟩, ⟨[7], fun _ _ => 1, fun _ => true⟩]⟩

/-- C1 counterexample: with `maxWindowSize = 1` the constructor sets
`ssthresh = 1 // 2 = 0` and a lossless tick leaves it at 0, so
`ssthresh ≥ 1` fails after tick 1 — the claim is false for every
`maxWindowSize` as stated. -/
theorem C1_counterexample :
    ¬ (1 ≤ (VPlatoon.run_ticks (VPlatoon.initCongestion 1)
        [⟨[], fun _ _ => 0, fun _ => false⟩]).ssthresh) := by decide

/-- Constructor state for the slow-start trace (`maxWindowSize = 5`). -/
def traceStart : VPlatoon.CongestionState := VPlatoon.initCongestion 5

/-- State after lossless tick 1 (one pending packet, unit coefficients). -/
def traceTick1 : VPlatoon.CongestionState :=
  VPlatoon.handle_congestion_control traceStart [7] (fun _ _ => 1) (fun _ => false)

/-- State after lossless tick 2. -/
def traceTick2 : VPlatoon.CongestionState :=
  VPlatoon.handle_congestion_control traceTick1 [7] (fun _ _ => 1) (fun _ => false)

/-- State after lossless tick 3. -/
def traceTick3 : VPlatoon.CongestionState :=
  VPlatoon.handle_congestion_control traceTick2 [7] (fun _ _ => 1) (fun _ => false)

/-- State after tick 3 when a loss hits its packets. -/
def traceTick3Loss : VPlatoon.CongestionState :=
  VPlatoon.handle_congestion_control traceTick2 [7] (fun _ _ => 1) (fun _ => true)

/-- C5: starting from the constructor state for `maxWindowSize = 5`
(`cwnd = 1`, `ssthresh = 2`): tick 1 doubles in slow start (`1 < 2`) to
`cwnd = 2`; tick 2 is congestion avoidance (`2 < 2` fails) giving
`cwnd = 3`; a lossless tick 3 gives `cwnd = 4`, while a loss among the
packets of tick 3 resets the state to `ssthresh = 2`, `cwnd = 1`. -/
theorem C5_slow_start_trace :
    traceStart.cwnd = 1 ∧ traceStart.ssthresh = 2 ∧
    traceStart.cwnd < traceStart.ssthresh ∧
    traceTick1.cwnd = 2 ∧ ¬ (traceTick1.cwnd < traceTick1.ssthresh) ∧
    traceTick2.cwnd = 3 ∧ traceTick3.cwnd = 4 ∧
    traceTick3Loss.ssthresh = 2 ∧ traceTick3Loss.cwnd = 1 := by decide

/-- Concrete vehicle used to instantiate the codec theorems (fresh
counters, running, no leader, as after the constructor). -/
def sampleVehicle : Vpemer.Vehicle :=
  ⟨0, 50, 0, false, true, false, .straight, none, 0, 0, 0⟩

/-- Concrete double-bit heartbeat used by the codec witnesses. -/
def doubleBitHeartbeat : Heartbeat :=
  ⟨[true, false, true], 0, true, some .double_bit, none⟩

/-- The codec never touches the non-counter fields of the vehicle: its only
vehicle side effects are the three error counters. -/
theorem detect_preserves_core (v : Vpemer.Vehicle) (hb : Heartbeat) :
    (Vpemer.detect_and_correct_errors v hb).1.speed = v.speed ∧
    (Vpemer.detect_and_correct_errors v hb).1.position = v.position ∧
    (Vpemer.detect_and_correct_errors v hb).1.synchronized = v.synchronized ∧
    (Vpemer.detect_and_correct_errors v hb).1.running = v.running ∧
    (Vpemer.detect_and_correct_errors v hb).1.obstacle_detected = v.obstacle_detected ∧
    (Vpemer.detect_and_correct_errors v hb).1.direction = v.direction ∧
    (Vpemer.detect_and_correct_errors v hb).1.leader = v.leader ∧
    (Vpemer.detect_and_correct_errors v hb).1.vehicle_id = v.vehicle_id := by
  unfold Vpemer.detect_and_correct_errors
  cases hhb : hb.error_type with
  | none => simp
  | some et =>
    cases et with
    | single_bit =>
      unfold Vpemer.correct_single_bit_error
      dsimp only
      split
      · split <;> simp
      · simp
    | double_bit => simp
    | burst =>
      unfold Vpemer.correct_burst_error
      dsimp only
      split
      · simp
      · split <;> simp

/-- C9: a double-bit heartbeat always fails the codec, the owning vehicle's
double-bit counter grows by exactly one, and nothing else changes. -/
theorem C9_double_bit_counter (v : Vpemer.Vehicle) (hb : Heartbeat)
    (herr : hb.error_type = some .double_bit) :
    Vpemer.detect_and_correct_errors v hb =
      ({ v with err_double := v.err_double + 1 }, hb, false) := by
  unfold Vpemer.detect_and_correct_errors
  rw [herr]

/-- C9 witness: the double-bit theorem at a concrete heartbeat. -/
theorem C9_double_bit_counter_witness :
    doubleBitHeartbeat.error_type = some .double_bit ∧
    Vpemer.detect_and_correct_errors sampleVehicle doubleBitHeartbeat =
      ({ sampleVehicle with err_double := sampleVehicle.err_double + 1 },
       doubleBitHeartbeat, false) :=
  ⟨rfl, C9_double_bit_counter sampleVehicle doubleBitHeartbeat rfl⟩

/-- C2: evaluation of the code at a single-bit heartbeat whose stored
parity matches `popcount(payload) mod 2`. The payload is left unchanged,
but `correct_single_bit_error` falls through to `return False`, so the
codec reports failure and `process_heartbeat` drops the heartbeat — the
claim (and §4.2 of the spec) requires success = true here. -/
theorem C2_parity_match_code_result :
    let hb : Heartbeat := ⟨[true, false, true], 0, true, some .single_bit, none⟩
    hb.parity = hb.binary_message.count true % 2 ∧
    (Vpemer.detect_and_correct_errors sampleVehicle hb).2.2 = false ∧
    (Vpemer.detect_and_correct_errors sampleVehicle hb).2.1 = hb ∧
    (Vpemer.detect_and_correct_errors sampleVehicle hb).1 = sampleVehicle := by
  decide

/-- Concrete burst heartbeat whose three identical redundant copies equal
its payload `101`. -/
def burstMatchHeartbeat : Heartbeat :=
  ⟨[true, false, true], 0, true, some .burst,
   some [[true, false, true], [true, false, true], [true, false, true]]⟩

/-- C3: evaluation of the code at a burst heartbeat with exactly three
identical redundant copies equal to the current payload. The majority is
computed and equals the payload, but `correct_burst_error` then takes the
`return False` branch, so the codec reports failure (after bumping the
burst counter) — the claim (and §4.2 of the spec) requires success = true
as a no-op here. -/
theorem C3_burst_majority_match_code_result :
    3 ≤ (burstMatchHeartbeat.redundant_messages.getD
          [burstMatchHeartbeat.binary_message]).length ∧
    Vpemer.majority_message [[true, false, true], [true, false, true],
        [true, false, true]] = burstMatchHeartbeat.binary_message ∧
    (Vpemer.detect_and_correct_errors sampleVehicle burstMatchHeartbeat).2.2
      = false ∧
    (Vpemer.detect_and_correct_errors sampleVehicle burstMatchHeartbeat).2.1
      = burstMatchHeartbeat ∧
    (Vpemer.detect_and_correct_errors sampleVehicle burstMatchHeartbeat).1.err_burst
      = sampleVehicle.err_burst + 1 := by
  decide

/-- C4: whenever the codec reports failure, `process_heartbeat` returns
immediately, leaving speed, position and the synchronized flag (indeed
every non-counter field) of the vehicle unchanged. -/
theorem C4_failed_correction_no_state_change (v : Vpemer.Vehicle)
    (hb : Heartbeat) (lookup_speed : Nat → ℚ) (delta : ℚ)
    (hfail : (Vpemer.detect_and_correct_errors v hb).2.2 = false) :
    (Vpemer.process_heartbeat v hb lookup_speed delta).2.2 = false ∧
    (Vpemer.process_heartbeat v hb lookup_speed delta).1.speed = v.speed ∧
    (Vpemer.process_heartbeat v hb lookup_speed delta).1.position = v.position ∧
    (Vpemer.process_heartbeat v hb lookup_speed delta).1.synchronized = v.synchronized ∧
    (Vpemer.process_heartbeat v hb lookup_speed delta).1.running = v.running ∧
    (Vpemer.process_heartbeat v hb lookup_speed delta).1.obstacle_detected
      = v.obstacle_detected ∧
    (Vpemer.process_heartbeat v hb lookup_speed delta).1.direction = v.direction ∧
    (Vpemer.process_heartbeat v hb lookup_speed delta).1.leader = v.leader := by
  have h := detect_preserves_core v hb
  have hpr : Vpemer.process_heartbeat v hb lookup_speed delta =
      ((Vpemer.detect_and_correct_errors v hb).1,
       (Vpemer.detect_and_correct_errors v hb).2.1, false) := by
    unfold Vpemer.process_heartbeat
    dsimp only
    rw [hfail]
    simp
  rw [hpr]
  exact ⟨rfl, h.1, h.2.1, h.2.2.1, h.2.2.2.1, h.2.2.2.2.1, h.2.2.2.2.2.1,
    h.2.2.2.2.2.2.1⟩

/-- C4 witness: the frame theorem at a concrete double-bit heartbeat, whose
correction fails. -/
theorem C4_failed_correction_no_state_change_witness :
    (Vpemer.detect_and_correct_errors sampleVehicle doubleBitHeartbeat).2.2 = false ∧
    ((Vpemer.process_heartbeat sampleVehicle doubleBitHeartbeat
        (fun _ => 0) 0).2.2 = false ∧
      (Vpemer.process_heartbeat sampleVehicle doubleBitHeartbeat
        (fun _ => 0) 0).1.speed = sampleVehicle.speed) :=
  ⟨rfl,
    (C4_failed_correction_no_state_change sampleVehicle doubleBitHeartbeat
      (fun _ => 0) 0 rfl).1,
    (C4_failed_correction_no_state_change sampleVehicle doubleBitHeartbeat
      (fun _ => 0) 0 rfl).2.1⟩

/-- On a nonempty payload whose stored single-bit parity (0 or 1) differs
from the recomputed one, the left-to-right scan already succeeds at bit 0:
flipping any one bit toggles popcount parity. -/
theorem find_parity_fix_first (msg : List Bool) (parity : Nat)
    (hne : msg ≠ []) (hp : parity < 2)
    (hdiff : parity ≠ msg.count true % 2) :
    Vpemer.find_parity_fix msg parity = some (flip_bit msg 0) := by
  cases msg with
  | nil => exact absurd rfl hne
  | cons b bs =>
    have hflip : flip_bit (b :: bs) 0 = (!b) :: bs := rfl
    have hcount : ((!b) :: bs).count true % 2 = parity := by
      cases b <;> simp [List.count_cons] at hdiff ⊢ <;> omega
    unfold Vpemer.find_parity_fix
    have hlen : (b :: bs).length = bs.length + 1 := rfl
    rw [hlen, List.range_succ_eq_map]
    rw [List.findSome?_cons]
    dsimp only
    rw [hflip, hcount]
    simp

/-- C10 (amended): for every heartbeat with a nonempty payload, single-bit
error type and a stored parity bit (0 or 1) differing from
`popcount(payload) mod 2`, the codec succeeds at the very first scan
position: it returns success = true, the payload with bit 0 flipped, and
a single-bit-counter increment; the no-position-found failure branch is
not reached. -/
theorem C10_single_bit_first_flip (v : Vpemer.Vehicle) (hb : Heartbeat)
    (herr : hb.error_type = some .single_bit)
    (hne : hb.binary_message ≠ []) (hp : hb.parity < 2)
    (hdiff : hb.parity ≠ hb.binary_message.count true % 2) :
    Vpemer.detect_and_correct_errors v hb =
      ({ v with err_single := v.err_single + 1 },
       { hb with binary_message := flip_bit hb.binary_message 0 }, true) := by
  unfold Vpemer.detect_and_correct_errors
  rw [herr]
  unfold Vpemer.correct_single_bit_error
  dsimp only
  rw [if_pos hdiff, find_parity_fix_first hb.binary_message hb.parity hne hp hdiff]
  simp [herr]

/-- C10 witness: the amended theorem at payload `00` with stored parity 1;
the corrected payload is `10`. -/
theorem C10_single_bit_first_flip_witness :
    ((⟨[false, false], 1, true, some .single_bit, none⟩ : Heartbeat).error_type
        = some .single_bit ∧
      ([false, false] : List Bool) ≠ [] ∧ 1 < 2 ∧
      1 ≠ ([false, false] : List Bool).count true % 2) ∧
    Vpemer.detect_and_correct_errors sampleVehicle
        ⟨[false, false], 1, true, some .single_bit, none⟩ =
      ({ sampleVehicle with err_single := sampleVehicle.err_single + 1 },
       ⟨[true, false], 1, true, some .single_bit, none⟩, true) :=
  ⟨⟨rfl, by decide, by decide, by decide⟩,
    C10_single_bit_first_flip sampleVehicle
      ⟨[false, false], 1, true, some .single_bit, none⟩
      rfl (by decide) (by decide) (by decide)⟩

/-- C10 counterexample: the empty payload with stored parity 1 and
single-bit error type satisfies the claim's premise (the stored parity
differs from `popcount mod 2 = 0`), yet the scan ranges over no positions
and the failure branch is reached: the codec returns success = false, so
the claim is false for every heartbeat as stated. -/
theorem C10_counterexample :
    (⟨[], 1, true, some .single_bit, none⟩ : Heartbeat).parity ≠
      ([] : List Bool).count true % 2 ∧
    (Vpemer.detect_and_correct_errors sampleVehicle
        ⟨[], 1, true, some .single_bit, none⟩).2.2 = false := by
  decide

/-- C7: `put` stores exactly `max(1, priority - ageFactor)` computed with
the aging factor at enqueue time; `increase_age` bumps the factor and
leaves every already-stored entry untouched, so it changes the adjusted
priority of future enqueues only; and `get` dequeues an entry whose stored
adjusted priority is minimal among all queued entries. -/
theorem C7_aged_priority_queue (q : Vpemer.AgedPriorityQueue) (p : Int)
    (hb : Heartbeat) :
    (q.put p hb).entries = q.entries ++ [(max 1 (p - q.age_factor), hb)] ∧
    q.increase_age.age_factor = q.age_factor + 1 ∧
    q.increase_age.entries = q.entries ∧
    (q.increase_age.put p hb).entries =
      q.entries ++ [(max 1 (p - (q.age_factor + 1)), hb)] ∧
    (∀ e q', q.get = some (e, q') →
      e ∈ q.entries ∧ ∀ e2 ∈ q.entries, e.1 ≤ e2.1) := by
  refine ⟨rfl, rfl, rfl, rfl, ?_⟩
  intro e q' hget
  unfold Vpemer.AgedPriorityQueue.get at hget
  cases hq : q.entries with
  | nil => rw [hq] at hget; simp at hget
  | cons x xs =>
    rw [hq] at hget
    dsimp only at hget
    have hpair := Option.some.inj hget
    have he : e = minBy (fun t => t.1) x xs := (congrArg Prod.fst hpair).symm
    rw [he]
    exact ⟨minBy_mem (fun t => t.1) x xs, minBy_le (fun t => t.1) x xs⟩

/-- Concrete heartbeats and queue instantiating the queue theorem. -/
def hbOne : Heartbeat := ⟨[true], 1, false, none, none⟩

/-- Second concrete heartbeat for the queue witness. -/
def hbZero : Heartbeat := ⟨[false], 0, false, none, none⟩

/-- Concrete queue: aging factor 1, entries with stored priorities 3, 2. -/
def sampleQueue : Vpemer.AgedPriorityQueue := ⟨1, [(3, hbOne), (2, hbZero)]⟩

/-- C7 witness: the queue theorem at the concrete queue; `get` returns the
priority-2 entry, which is minimal. -/
theorem C7_aged_priority_queue_witness :
    (sampleQueue.put 5 hbOne).entries
        = sampleQueue.entries ++ [(max 1 (5 - sampleQueue.age_factor), hbOne)] ∧
    sampleQueue.increase_age.entries = sampleQueue.entries ∧
    ((2, hbZero) ∈ sampleQueue.entries ∧
      ∀ e2 ∈ sampleQueue.entries, ((2 : Int), hbZero).1 ≤ e2.1) :=
  ⟨(C7_aged_priority_queue sampleQueue 5 hbOne).1,
    (C7_aged_priority_queue sampleQueue 5 hbOne).2.2.1,
    (C7_aged_priority_queue sampleQueue 5 hbOne).2.2.2.2 (2, hbZero)
      ⟨1, [(3, hbOne)]⟩ rfl⟩

/-- C6 (amended): compare.py's `assign_leader` on the vehicle at index `i`
picks, among registered vehicles sharing its direction with strictly
greater position, the one with maximal position (so the leader is a
registered vehicle, never the assigning vehicle, and is ahead at
assignment time), stores its id as leader and immediately adopts its
speed, while the assignment leaves the chosen leader's own speed
unchanged; vpemer.py's variant performs the same selection but without the
speed adoption (see the counterexample). -/
theorem C6_assign_leader_selection_and_adoption (vehicles : List Compare.Vehicle)
    (i : Nat) (self_ c : Compare.Vehicle) (cs : List Compare.Vehicle)
    (hself : vehicles.get? i = some self_)
    (hcands : Compare.leader_candidates vehicles self_ = c :: cs) :
    ((Compare.assign_leader vehicles i).get? i =
      some { self_ with
             leader := some (maxBy (fun v => v.position) c cs).vehicle_id,
             speed := (maxBy (fun v => v.position) c cs).speed }) ∧
    (maxBy (fun v => v.position) c cs) ∈ vehicles ∧
    (maxBy (fun v => v.position) c cs).direction = self_.direction ∧
    self_.position < (maxBy (fun v => v.position) c cs).position ∧
    (∀ v ∈ vehicles, v.direction = self_.direction →
      self_.position < v.position →
      v.position ≤ (maxBy (fun v => v.position) c cs).position) ∧
    (Compare.apply_leader_update self_.vehicle_id
        (maxBy (fun v => v.position) c cs).vehicle_id
        (maxBy (fun v => v.position) c cs).speed
        (maxBy (fun v => v.position) c cs)).speed
      = (maxBy (fun v => v.position) c cs).speed := by
  have hmem : maxBy (fun v => v.position) c cs ∈ c :: cs :=
    maxBy_mem (fun v => v.position) c cs
  have hfilter : maxBy (fun v => v.position) c cs ∈
      Compare.leader_candidates vehicles self_ := by rw [hcands]; exact hmem
  have hprop := List.mem_filter.mp hfilter
  have hprops := of_decide_eq_true hprop.2
  refine ⟨?_, hprop.1, hprops.1, hprops.2, ?_, ?_⟩
  · unfold Compare.assign_leader
    rw [hself]
    dsimp only
    rw [hcands]
    dsimp only
    rw [List.get?_map, hself]
    unfold Compare.apply_leader_update
    simp
  · intro v hv hdir hpos
    have hvf : v ∈ Compare.leader_candidates vehicles self_ :=
      List.mem_filter.mpr ⟨hv, decide_eq_true ⟨hdir, hpos⟩⟩
    rw [hcands] at hvf
    exact maxBy_le (fun v => v.position) c cs v hvf
  · unfold Compare.apply_leader_update
    split
    · rfl
    · split <;> rfl

/-- Concrete compare.py vehicle ahead (position 10, speed 50). -/
def vehicleAhead : Compare.Vehicle := ⟨0, 50, 10, false, .straight, none⟩

/-- Concrete compare.py vehicle behind (position 0, speed 30). -/
def vehicleBehind : Compare.Vehicle := ⟨1, 30, 0, false, .straight, none⟩

/-- C6 witness: in the registry `[ahead, behind]`, assigning a leader to
the vehicle at index 1 selects the ahead vehicle and adopts its speed. -/
theorem C6_assign_leader_selection_and_adoption_witness :
    (([vehicleAhead, vehicleBehind] : List Compare.Vehicle).get? 1
        = some vehicleBehind ∧
      Compare.leader_candidates [vehicleAhead, vehicleBehind] vehicleBehind
        = [vehicleAhead]) ∧
    ((Compare.assign_leader [vehicleAhead, vehicleBehind] 1).get? 1 =
      some { vehicleBehind with
             leader := some (maxBy (fun v => v.position) vehicleAhead []).vehicle_id,
             speed := (maxBy (fun v => v.position) vehicleAhead []).speed }) :=
  ⟨⟨rfl, rfl⟩,
    (C6_assign_leader_selection_and_adoption [vehicleAhead, vehicleBehind] 1
      vehicleBehind vehicleAhead [] rfl rfl).1⟩

/-- Concrete vpemer.py vehicle ahead (position 10, speed 50). -/
def vpVehicleAhead : Vpemer.Vehicle :=
  ⟨0, 50, 10, false, true, false, .straight, none, 0, 0, 0⟩

/-- Concrete vpemer.py vehicle behind (position 0, speed 30). -/
def vpVehicleBehind : Vpemer.Vehicle :=
  ⟨1, 30, 0, false, true, false, .straight, none, 0, 0, 0⟩

/-- C6 counterexample: vpemer.py's `assign_leader` (cited by the claim)
stores the leader id but adopts no speed: immediately after it runs on the
behind vehicle with the ahead vehicle chosen as leader, the follower's
speed is still 30 while the leader's is 50, so `B.speed == A.speed`
immediately after `assignLeader` is false for that variant. -/
theorem C6_counterexample :
    (Vpemer.assign_leader [vpVehicleAhead, vpVehicleBehind] vpVehicleBehind).leader
        = some vpVehicleAhead.vehicle_id ∧
    (Vpemer.assign_leader [vpVehicleAhead, vpVehicleBehind] vpVehicleBehind).speed
        = 30 ∧
    vpVehicleAhead.speed = 50 ∧ (30 : ℚ) ≠ 50 :=
  ⟨rfl, rfl, rfl, by decide⟩

/-- Speed bound for vpemer.py's `adjust_speed`: the random-walk branch is
clamped into `[10, MAX_SPEED]` and the leader branch copies a registry
speed, so the result stays in `[0, MAX_SPEED]` whenever every registry
speed does. -/
theorem adjust_speed_bounds (u : Vpemer.Vehicle) (lookup_speed : Nat → ℚ)
    (delta : ℚ)
    (hlk : ∀ lid, 0 ≤ lookup_speed lid ∧ lookup_speed lid ≤ MAX_SPEED) :
    0 ≤ (Vpemer.adjust_speed u lookup_speed delta).speed ∧
    (Vpemer.adjust_speed u lookup_speed delta).speed ≤ MAX_SPEED := by
  unfold Vpemer.adjust_speed
  cases hul : u.leader with
  | some lid => exact ⟨(hlk lid).1, (hlk lid).2⟩
  | none =>
    constructor
    · exact le_max_of_le_left (by norm_num)
    · exact max_le (by norm_num [MAX_SPEED]) (min_le_right _ _)

/-- C8 (amended): every speed-writing operation of the vpemer.py agent —
the autonomous/leader-following speed adjustment, heartbeat processing
(including sync-speed adoption capped at `MAX_SPEED`), obstacle
deceleration of the vehicle itself and of every notified vehicle, and
intersection handling (including yielding) — keeps the vehicle's speed in
`[0, MAX_SPEED]`, given that the vehicle's current speed is in range and
every registry speed a leader lookup can return is in range. The
unsynchronized speed adjustment of vehiclePlatoon.py is not clamped and
violates the bound (see the counterexample). -/
theorem C8_speed_stays_bounded (v w : Vpemer.Vehicle)
    (lookup_speed : Nat → ℚ) (delta : ℚ) (hb : Heartbeat)
    (others : List Vpemer.Vehicle) (is_at is_can_turn : Bool) (nd : Direction)
    (hv : 0 ≤ v.speed ∧ v.speed ≤ MAX_SPEED)
    (hw : 0 ≤ w.speed ∧ w.speed ≤ MAX_SPEED)
    (hlk : ∀ lid, 0 ≤ lookup_speed lid ∧ lookup_speed lid ≤ MAX_SPEED) :
    (0 ≤ (Vpemer.adjust_speed v lookup_speed delta).speed ∧
      (Vpemer.adjust_speed v lookup_speed delta).speed ≤ MAX_SPEED) ∧
    (0 ≤ (Vpemer.process_heartbeat v hb lookup_speed delta).1.speed ∧
      (Vpemer.process_heartbeat v hb lookup_speed delta).1.speed ≤ MAX_SPEED) ∧
    (0 ≤ (Vpemer.handle_obstacle v others).1.speed ∧
      (Vpemer.handle_obstacle v others).1.speed ≤ MAX_SPEED) ∧
    (0 ≤ (Vpemer.obstacle_notify w).speed ∧
      (Vpemer.obstacle_notify w).speed ≤ MAX_SPEED) ∧
    (0 ≤ (Vpemer.handle_intersection v is_at is_can_turn nd).speed ∧
      (Vpemer.handle_intersection v is_at is_can_turn nd).speed ≤ MAX_SPEED) := by
  refine ⟨adjust_speed_bounds v lookup_speed delta hlk, ?_, ?_, ?_, ?_⟩
  · unfold Vpemer.process_heartbeat
    dsimp only
    split
    · split
      · dsimp only
        constructor
        · exact le_min (Nat.cast_nonneg _) (by norm_num [MAX_SPEED])
        · exact min_le_right _ _
      · exact adjust_speed_bounds _ lookup_speed delta hlk |>.imp
          (fun h => h) (fun h => h)
    · have h := detect_preserves_core v hb
      rw [h.1]
      exact hv
  · unfold Vpemer.handle_obstacle
    split
    · dsimp only
      constructor
      · exact le_max_left _ _
      · exact max_le (by norm_num [MAX_SPEED]) (by linarith [hv.2])
    · exact hv
  · unfold Vpemer.obstacle_notify
    split
    · exact hw
    · dsimp only
      constructor
      · exact le_max_left _ _
      · exact max_le (by norm_num [MAX_SPEED]) (by linarith [hw.2])
  · unfold Vpemer.handle_intersection
    split
    · split
      · exact hv
      · split
        · exact hv
        · dsimp only
          exact ⟨le_refl 0, by norm_num [MAX_SPEED]⟩
    · exact hv

/-- C8 witness: the bound theorem at a concrete in-range vehicle, a
constant in-range registry lookup and a concrete heartbeat. -/
theorem C8_speed_stays_bounded_witness :
    ((0 ≤ sampleVehicle.speed ∧ sampleVehicle.speed ≤ MAX_SPEED) ∧
      (∀ _lid : Nat, 0 ≤ (60 : ℚ) ∧ (60 : ℚ) ≤ MAX_SPEED)) ∧
    (0 ≤ (Vpemer.adjust_speed sampleVehicle (fun _ => 60) 7).speed ∧
      (Vpemer.adjust_speed sampleVehicle (fun _ => 60) 7).speed ≤ MAX_SPEED) :=
  ⟨⟨⟨by decide, by decide⟩, fun _ => ⟨by decide, by decide⟩⟩,
    (C8_speed_stays_bounded sampleVehicle sampleVehicle (fun _ => 60) 7
      doubleBitHeartbeat [] false false .straight
      ⟨by decide, by decide⟩ ⟨by decide, by decide⟩
      (fun _ => ⟨(by decide : (0 : ℚ) ≤ 60), (by decide : (60 : ℚ) ≤ MAX_SPEED)⟩)).1⟩

/-- C8 counterexample: vehiclePlatoon.py's `adjust_speed` applies the
random draw with no clamping: an unsynchronized vehicle with in-range
speed 3 and draw -5 (inside `random.uniform(-5, 5)`) ends with speed
-2 < 0, so "speed remains within [0, MAX_SPEED] after every speed
adjustment" is false for that variant. -/
theorem C8_counterexample :
    (0 ≤ ((⟨3, 0, false⟩ : VPlatoon.Vehicle)).speed ∧
      ((⟨3, 0, false⟩ : VPlatoon.Vehicle)).speed ≤ MAX_SPEED) ∧
    ((-5 : ℚ) ≤ -5 ∧ (-5 : ℚ) ≤ 5) ∧
    (VPlatoon.adjust_speed ⟨3, 0, false⟩ (-5)).speed < 0 := by
  refine ⟨⟨by decide, by decide⟩, ⟨by decide, by decide⟩, ?_⟩
  unfold VPlatoon.adjust_speed
  norm_num
